import Mathlib

/-!
Shallow embedding of the mirror job engine of the `distribution` pull-through
mirroring layer (files `registry/api/v2/mirror.go`, `registry/proxy/proxymirror.go`,
`registry/handlers/mirrors.go`), together with theorems settling the claims of
the specification.

Modelling conventions:
- Go `int`/`int64` are modelled as `Int`; where overflow matters the wrap-around
  of 64-bit two's-complement arithmetic is made explicit (`wrap64`), and Go's
  truncated (toward-zero) division is `Int.div`.
- Go maps are association lists with first-match lookup and overwrite-insert.
- `time.Time` is an `Int` (nanoseconds); `t.After(u)` is `u < t`.
- Fallible Go calls are driven by an explicit environment (`Env`) of oracles.
-/

namespace Mirror

/-- Go `type Phase string` from mirror.go. -/
abbrev Phase := String

/-- Constant `Pending Phase = "Pending"`. -/
def Pending : Phase := "Pending"

/-- Constant `Mirroring Phase = "Mirroring"`. -/
def Mirroring : Phase := "Mirroring"

/-- Constant `Mirrored Phase = "Mirrored"`. -/
def Mirrored : Phase := "Mirrored"

/-- Go `type Code int` from mirror.go. -/
abbrev Code := Int

def Success : Code := 100

def NameInvalid : Code := 101

def NameNotFound : Code := 102

def TagInvalid : Code := 103

def TagNotFound : Code := 104

def Unknown : Code := 105

def UnknownMediaType : Code := 106

/-- Blob digests (`digest.Digest`) are plain strings here. -/
abbrev Digest := String

/-- Go `type Blob struct` from mirror.go. -/
structure Blob where
  Precent : Int
  Size : Int
  Error : Option String
  Speed : String
deriving DecidableEq, Repr

/-- Go `type Image struct` from mirror.go; the Go map `Blobs` is an association
list with unique keys maintained by `mapInsert`. -/
structure Image where
  Architecture : String
  OS : String
  Digest : Mirror.Digest
  Blobs : List (Mirror.Digest × Blob)
deriving DecidableEq, Repr

/-- Go `type ImageMirror struct` from mirror.go (exported fields plus
`blobToImages`; the mutex and the `reference.Named` handle carry no state
relevant to the claims). -/
structure ImageMirror where
  Name : String
  Tag : String
  CreateTime : Int
  Phase : Mirror.Phase
  Message : String
  Code : Mirror.Code
  Images : List Image
  blobToImages : List (Mirror.Digest × Nat)
deriving DecidableEq, Repr

/-- First-match association-list lookup (Go map read). -/
def mapLookup {α : Type} : List (Digest × α) → Digest → Option α
  | [], _ => none
  | e :: rest, k => if e.1 = k then some e.2 else mapLookup rest k

/-- Go map insert: overwrite the first entry with this key, else append. -/
def mapInsert {α : Type} : List (Digest × α) → Digest → α → List (Digest × α)
  | [], k, v => [(k, v)]
  | e :: rest, k, v => if e.1 = k then (k, v) :: rest else e :: mapInsert rest k v

/-- Update the (first) entry at a key in place, leaving everything else alone
(Go: mutation through the `*Blob` pointer obtained from the map). -/
def updateBlob : List (Digest × Blob) → Digest → (Blob → Blob) → List (Digest × Blob)
  | [], _, _ => []
  | e :: rest, k, f => if e.1 = k then (e.1, f e.2) :: rest else e :: updateBlob rest k f

/-- Constructor `NewImageMirror` from mirror.go: fresh job, phase `Pending`, creation time
recorded; Go zero values for `Message` (empty) and `Code` (0). -/
def NewImageMirror (name tag : String) (now : Int) : ImageMirror :=
  { Name := name, Tag := tag, CreateTime := now, Phase := Pending, Message := "",
    Code := 0, Images := [], blobToImages := [] }

/-- Method `UpdateStatue` from mirror.go: set `Code`; a non-empty message is stored
verbatim, otherwise a canonical message is derived from the code, and `Success`
additionally advances the phase to `Mirrored`. -/
def UpdateStatue (im : ImageMirror) (code : Code) (message : String) : ImageMirror :=
  let im := { im with Code := code }
  if message ≠ "" then { im with Message := message }
  else if code = NameInvalid then { im with Message := "repository name invalid" }
  else if code = TagNotFound then { im with Message := "tag not found" }
  else if code = Success then { im with Message := "mirror successed", Phase := Mirrored }
  else im

/-- Two's-complement wrap-around of 64-bit signed arithmetic. -/
def wrap64 (x : Int) : Int := (x + 2 ^ 63) % 2 ^ 64 - 2 ^ 63

/-- Result of `UpdateImagePrecent`: Go returns `error` and mutates the receiver,
or panics at runtime (integer division by zero / minInt64 quotient overflow).
The (possibly updated) receiver is carried in the non-crashing cases. -/
inductive UPResult where
  | ok (im : ImageMirror)
  | err (msg : String) (im : ImageMirror)
  | crash
deriving DecidableEq, Repr

/-- Method `UpdateImagePrecent(dig, size)` from mirror.go: route the progress update
through `blobToImages`, then set `Precent = int(size * 100 / layer.Size)`
(64-bit wrap on the product, Go truncated division, runtime panic when
`layer.Size == 0` or on the minInt64 / -1 overflow case). -/
def UpdateImagePrecent (im : ImageMirror) (dig : Digest) (size : Int) : UPResult :=
  match mapLookup im.blobToImages dig with
  | none => .err ("ImageMirror: not found digest " ++ dig) im
  | some idx =>
    if h : idx < im.Images.length then
      let img := im.Images[idx]
      match mapLookup img.Blobs dig with
      | none => .err ("ImageMirror: not found image layer for digest " ++ dig) im
      | some layer =>
        if layer.Size = 0 ∨ (wrap64 (size * 100) = -(2 ^ 63) ∧ layer.Size = -1) then
          .crash
        else
          let setP : Blob → Blob := fun b => { b with Precent := Int.tdiv (wrap64 (size * 100)) layer.Size }
          .ok { im with Images := im.Images.set idx { img with Blobs := updateBlob img.Blobs dig setP } }
    else .err ("ImageMirror: digest found images index larger than len " ++ dig) im

/-! ### Job registry and eviction sweep (proxymirror.go) -/

/-- The controller's `mirrors map[string]*v2.ImageMirror`, keys unique. -/
abbrev Registry := List (String × ImageMirror)

/-- Retention span `7 * 24 * time.Hour` in nanoseconds, as used by `gc`. -/
def retentionNanos : Int := 7 * 24 * 60 * 60 * 1000000000

/-- One `ticker.C` tick of `gc` from proxymirror.go: collect the keys of jobs
with phase `Mirrored` created before `now − 7 days`, then delete them. -/
def gcTick (now : Int) (mirrors : Registry) : Registry :=
  let t := now - retentionNanos
  let needDeleted := (mirrors.filter
    (fun p => decide (p.2.Phase = Mirrored) && decide (p.2.CreateTime < t))).map Prod.fst
  mirrors.filter (fun p => !needDeleted.contains p.1)

/-- The two `select` cases of the `gc` loop: a ticker tick (with its time)
or the context's `Done` channel fired. -/
inductive SelectCase where
  | tick (now : Int)
  | ctxDone
deriving DecidableEq, Repr

/-- One execution of the `select` body in `gc`. Returns the registry and
whether the enclosing `for` loop is exited. In the Go source the `ctxDone`
arm executes `break`, which terminates the `select` statement only — not the
`for` loop — so neither arm ever exits the loop. -/
def gcSelect (c : SelectCase) (mirrors : Registry) : Registry × Bool :=
  match c with
  | .tick now => (gcTick now mirrors, false)
  | .ctxDone => (mirrors, false)

/-- The `for { select { ... } }` loop of `gc`, run over a finite trace of
select-case arrivals. The Bool result records whether the loop ever exited. -/
def gcLoop : List SelectCase → Registry → Registry × Bool
  | [], mirrors => (mirrors, false)
  | c :: rest, mirrors =>
    let r := gcSelect c mirrors
    if r.2 then (r.1, true) else gcLoop rest r.1

/-- Method `getim` from proxymirror.go: read-locked lookup; on miss, allocate a new
job, take the write lock, re-check, and insert if still absent (else adopt the
entry that won the race). Sequential rendering of the double-checked pattern. -/
def getim (mirrors : Registry) (name tag : String) (now : Int) : ImageMirror × Registry :=
  let ref := name ++ ":" ++ tag
  match mapLookup mirrors ref with
  | some im => (im, mirrors)
  | none =>
    let im := NewImageMirror name tag now
    match mapLookup mirrors ref with
    | none => (im, (ref, im) :: mirrors)
    | some im2 => (im2, mirrors)

/-- Method `delim` from proxymirror.go: unconditional delete of a key. -/
def delim (mirrors : Registry) (ref : String) : Registry :=
  mirrors.filter (fun p => !(p.1 == ref))

/-! ### `IsPending` under concurrent interleaving (mirror.go)

`IsPending` executes, in order: `mux.Lock()`, `mux.Unlock()`, the read
`isPending := Phase == Pending`, the conditional write `Phase = Mirroring`,
and returns. Because the unlock comes immediately after the lock (it is not
deferred), the read and the write run outside the critical section. We model
two threads running this instruction sequence against a shared phase and
mutex, under an explicit interleaving schedule. -/

structure PendState where
  mutexHeld : Option (Fin 2)
  phase : Phase
  pc : Fin 2 → Nat
  ret : Fin 2 → Option Bool

/-- Initial state: job freshly created (`Pending`), both threads at entry. -/
def pendInit : PendState :=
  { mutexHeld := none, phase := Pending, pc := fun _ => 0, ret := fun _ => none }

/-- One atomic step of thread `i` in `IsPending`; `none` when the thread is
blocked on the mutex or already finished. Program counters: 0 `mux.Lock()`,
1 `mux.Unlock()`, 2 `isPending := im.Phase == Pending`,
3 `if isPending { im.Phase = Mirroring }`, 4 returned. -/
def pendStep (s : PendState) (i : Fin 2) : Option PendState :=
  match s.pc i with
  | 0 =>
    match s.mutexHeld with
    | none => some { s with mutexHeld := some i, pc := fun j => if j = i then 1 else s.pc j }
    | some _ => none
  | 1 => some { s with mutexHeld := none, pc := fun j => if j = i then 2 else s.pc j }
  | 2 => some { s with ret := fun j => if j = i then some (decide (s.phase = Pending)) else s.ret j,
                       pc := fun j => if j = i then 3 else s.pc j }
  | 3 =>
    match s.ret i with
    | some true => some { s with phase := Mirroring, pc := fun j => if j = i then 4 else s.pc j }
    | some false => some { s with pc := fun j => if j = i then 4 else s.pc j }
    | none => none
  | _ => none

/-- Run a schedule (list of thread choices); `none` if any chosen step blocks. -/
def pendRun : List (Fin 2) → PendState → Option PendState
  | [], s => some s
  | i :: rest, s =>
    match pendStep s i with
    | some s2 => pendRun rest s2
    | none => none

/-! ### Transfer Engine (`MirrorImage` in mirror.go, `mirrorimages` in proxymirror.go) -/

/-- Platform descriptor (`v1.Platform` / `manifestlist` platform spec). -/
structure Platform where
  Architecture : String
  OS : String
deriving DecidableEq, Repr

/-- Descriptor record (`distribution.Descriptor`): the fields the engine reads. -/
structure Descriptor where
  MediaType : String
  Digest : Mirror.Digest
  Size : Int
  Platform : Option Mirror.Platform
deriving DecidableEq, Repr

/-- A decoded manifest: either a single-platform image manifest (whose
`References()` are its content descriptors) or a multi-platform manifest list
(`manifestlist.DeserializedManifestList`). -/
inductive Manifest where
  | image (references : List Descriptor)
  | index (manifests : List (Descriptor × Mirror.Platform))
deriving DecidableEq, Repr

/-- Method `manifest.References()`. -/
def Manifest.References : Manifest → List Descriptor
  | .image refs => refs
  | .index ms => ms.map Prod.fst

/-- The case list of the blob media-type switch in `MirrorImage`. -/
def recognizedMediaTypes : List String :=
  ["application/vnd.docker.container.image.v1+json",
   "application/vnd.oci.image.config.v1+json",
   "application/vnd.docker.image.rootfs.diff.tar.gzip",
   "application/vnd.in-toto+json",
   "application/vnd.oci.image.layer.v1.tar+gzip"]

/-- Environment of external calls made by one transfer run. Each oracle gives
the outcome the corresponding Go call would produce. -/
structure Env where
  /-- Error of `client.NewRepository`, if any. -/
  newRepositoryErr : Option String
  /-- Error of `repo.Manifests`, if any. -/
  remoteManifestsErr : Option String
  /-- Error of `c.embedded.Repository`, if any. -/
  localRepositoryErr : Option String
  /-- Error of `localrepo.Manifests`, if any. -/
  localManifestsErr : Option String
  /-- Outcome of `repo.Tags().Get(tag)`. -/
  tagsGet : Except String Descriptor
  /-- Outcome of `localManifestService.Get(digest)`. -/
  localManifestGet : Mirror.Digest → Except String Manifest
  /-- Outcome of `manifestService.Get(digest)` (remote). -/
  remoteManifestGet : Mirror.Digest → Except String Manifest
  /-- Outcome of `localrepo.Blobs().Stat(digest)`: `true` when the blob exists locally. -/
  localBlobStat : Mirror.Digest → Bool
  /-- Outcome of `repo.Blobs().Get(digest)` inside a fetch goroutine: `some msg` = error. -/
  remoteBlobGet : Mirror.Digest → Option String

/-- The reference-processing loop of `MirrorImage`. State: the image being
built, the job's `blobToImages`, and the digests whose fetch goroutines have
been launched (in launch order). Stops with an error at the first reference
whose media type is not recognized. -/
def miLoop (env : Env) (imgIdx : Nat) :
    List Descriptor → Image → List (Mirror.Digest × Nat) → List Mirror.Digest →
    Image × List (Mirror.Digest × Nat) × List Mirror.Digest × Option String
  | [], img, b2i, launched => (img, b2i, launched, none)
  | d :: rest, img, b2i, launched =>
    if recognizedMediaTypes.contains d.MediaType then
      let fresh : Blob := { Precent := 100, Size := d.Size, Error := none, Speed := "" }
      let img1 := { img with Blobs := mapInsert img.Blobs d.Digest fresh }
      if env.localBlobStat d.Digest then
        miLoop env imgIdx rest img1 b2i launched
      else
        let b2i1 := mapInsert b2i d.Digest imgIdx
        let zeroP : Blob → Blob := fun b => { b with Precent := 0 }
        let img2 := { img1 with Blobs := updateBlob img1.Blobs d.Digest zeroP }
        miLoop env imgIdx rest img2 b2i1 (launched ++ [d.Digest])
    else (img, b2i, launched, some ("unknown mediatype " ++ d.MediaType))

/-- The effects of the launched fetch goroutines, observed once `wg.Wait()`
returns: each failed `repo.Blobs().Get` sets that blob's `Error` and the
shared `getBlobError` flag. -/
def applyFetches (env : Env) : Image → List Mirror.Digest → Bool → Image × Bool
  | img, [], flag => (img, flag)
  | img, d :: rest, flag =>
    match env.remoteBlobGet d with
    | some msg =>
      applyFetches env
        { img with Blobs := updateBlob img.Blobs d (fun b => { b with Error := some msg }) }
        rest true
    | none => applyFetches env img rest flag

/-- The fresh `Image` appended at the top of `MirrorImage` (architecture/OS
from the descriptor's platform info when present). -/
def initImage (desc : Descriptor) : Image :=
  { Architecture := (match desc.Platform with | some p => p.Architecture | none => ""),
    OS := (match desc.Platform with | some p => p.OS | none => ""),
    Digest := desc.Digest, Blobs := [] }

/-- Result of one `MirrorImage` call: the updated job, the launch-ordered
fetched digests, whether this return path executed `wg.Wait()`, and the error
value returned. -/
structure MirrorImageResult where
  im : ImageMirror
  launched : List Mirror.Digest
  waited : Bool
  err : Option String
deriving Repr

/-- Method `MirrorImage` from mirror.go: append a fresh `Image` (platform info from
the descriptor), walk the manifest references launching a fetch goroutine per
recognized, locally-absent blob, and join the goroutines. The
unknown-media-type arm returns at once — without `wg.Wait()` — so on that path
`waited = false` and the outcome of the already-launched goroutines is not
folded in. -/
def MirrorImage (env : Env) (im : ImageMirror) (desc : Descriptor) (manifest : Manifest) :
    MirrorImageResult :=
  let imgIdx := im.Images.length
  match miLoop env imgIdx manifest.References (initImage desc) im.blobToImages [] with
  | (img, b2i, launched, some e) =>
    { im := { im with Images := im.Images ++ [img], blobToImages := b2i },
      launched := launched, waited := false, err := some e }
  | (img, b2i, launched, none) =>
    let r := applyFetches env img launched false
    { im := { im with Images := im.Images ++ [r.1], blobToImages := b2i },
      launched := launched, waited := true,
      err := if r.2 then some "download blob error" else none }

/-- The externally-visible steps of one `mirrorimages` run, in program order.
`localManifests ok` records the call `localrepo.Manifests(...)` together with
whether the handle came from a successful `embedded.Repository` call. -/
inductive Step where
  | configAuth
  | newRepository
  | remoteManifests
  | localRepository
  | localManifests (handleOk : Bool)
  | tagsGet
  | localManifestGet
  | remoteManifestGet (dg : Mirror.Digest)
  | mirrorImageCall (dg : Mirror.Digest)
  | updateStatus (code : Mirror.Code)
deriving DecidableEq, Repr

/-- Result of one `mirrorimages` run: final job, all fetch digests launched,
the executed step trace, and whether the run hit the failing type assertion
`manifest.(*manifestlist.DeserializedManifestList)`. -/
structure RunResult where
  im : ImageMirror
  launched : List Mirror.Digest
  events : List Step
  crashed : Bool
deriving Repr

/-- The child-manifest loop of the `oci.image.index` arm of `mirrorimages`. -/
def indexLoop (env : Env) :
    ImageMirror → List (Descriptor × Mirror.Platform) → List Mirror.Digest → List Step → RunResult
  | im, [], launched, ev =>
    { im := UpdateStatue im Success "", launched := launched,
      events := ev ++ [Step.updateStatus Success], crashed := false }
  | im, (md, pl) :: rest, launched, ev =>
    let d := { md with Platform := some pl }
    if d.MediaType = "application/vnd.oci.image.manifest.v1+json" then
      let ev1 := ev ++ [Step.remoteManifestGet d.Digest]
      match env.remoteManifestGet d.Digest with
      | .error e =>
        { im := UpdateStatue im Unknown ("get manifests error: " ++ e), launched := launched,
          events := ev1 ++ [Step.updateStatus Unknown], crashed := false }
      | .ok m =>
        let r := MirrorImage env im d m
        let ev2 := ev1 ++ [Step.mirrorImageCall d.Digest]
        match r.err with
        | some e =>
          { im := UpdateStatue r.im Unknown ("mirror image blobs error: " ++ e),
            launched := launched ++ r.launched,
            events := ev2 ++ [Step.updateStatus Unknown], crashed := false }
        | none => indexLoop env r.im rest (launched ++ r.launched) ev2
    else
      { im := UpdateStatue im UnknownMediaType ("unknown mediatype: " ++ d.MediaType),
        launched := launched, events := ev ++ [Step.updateStatus UnknownMediaType],
        crashed := false }

/-- Method `mirrorimages` from proxymirror.go, one full transfer run. Notable
translation points, each matching the source: the `embedded.Repository`
failure arm records a status but does not return (the run continues, calling
`Manifests` on the possibly-nil handle — `Step.localManifests false`); the
single-platform arm does not return after a `MirrorImage` error, so control
falls through to the final `UpdateStatue(Success, "")`. -/
def mirrorimages (env : Env) (im0 : ImageMirror) : RunResult :=
  let ev0 := [Step.configAuth, Step.newRepository]
  match env.newRepositoryErr with
  | some e =>
    { im := UpdateStatue im0 NameInvalid ("get registry repository error: " ++ e),
      launched := [], events := ev0 ++ [Step.updateStatus NameInvalid], crashed := false }
  | none =>
  let ev1 := ev0 ++ [Step.remoteManifests]
  match env.remoteManifestsErr with
  | some e =>
    { im := UpdateStatue im0 Unknown ("create manifests service error: " ++ e),
      launched := [], events := ev1 ++ [Step.updateStatus Unknown], crashed := false }
  | none =>
  let ev2 := ev1 ++ [Step.localRepository]
  let handleOk := env.localRepositoryErr.isNone
  let im1 :=
    match env.localRepositoryErr with
    | some e => UpdateStatue im0 Unknown ("get local repository error: " ++ e)
    | none => im0
  let ev3 :=
    match env.localRepositoryErr with
    | some _ => ev2 ++ [Step.updateStatus Unknown, Step.localManifests handleOk]
    | none => ev2 ++ [Step.localManifests handleOk]
  match env.localManifestsErr with
  | some e =>
    { im := UpdateStatue im1 Unknown ("create local manifests service error: " ++ e),
      launched := [], events := ev3 ++ [Step.updateStatus Unknown], crashed := false }
  | none =>
  let ev4 := ev3 ++ [Step.tagsGet]
  match env.tagsGet with
  | .error _ =>
    { im := UpdateStatue im1 TagNotFound "", launched := [],
      events := ev4 ++ [Step.updateStatus TagNotFound], crashed := false }
  | .ok desc =>
  let ev5 := ev4 ++ [Step.localManifestGet]
  match env.localManifestGet desc.Digest with
  | .error e =>
    { im := UpdateStatue im1 Unknown ("get manifests error: " ++ e), launched := [],
      events := ev5 ++ [Step.updateStatus Unknown], crashed := false }
  | .ok manifest =>
  if desc.MediaType = "application/vnd.docker.distribution.manifest.v2+json" then
    let r := MirrorImage env im1 desc manifest
    let ev6 := ev5 ++ [Step.mirrorImageCall desc.Digest]
    match r.err with
    | some e =>
      { im := UpdateStatue (UpdateStatue r.im Unknown ("mirror image blobs error: " ++ e))
          Success "",
        launched := r.launched,
        events := ev6 ++ [Step.updateStatus Unknown, Step.updateStatus Success],
        crashed := false }
    | none =>
      { im := UpdateStatue r.im Success "", launched := r.launched,
        events := ev6 ++ [Step.updateStatus Success], crashed := false }
  else if desc.MediaType = "application/vnd.oci.image.index.v1+json" then
    match manifest with
    | .image _ => { im := im1, launched := [], events := ev5, crashed := true }
    | .index entries => indexLoop env im1 entries [] ev5
  else
    { im := UpdateStatue im1 UnknownMediaType ("unknown mediatype: " ++ desc.MediaType),
      launched := [], events := ev5 ++ [Step.updateStatus UnknownMediaType], crashed := false }

/-! ### Concrete fixtures used by witnesses and counterexamples -/

/-- A recognized (OCI layer) reference, absent locally in the fixtures. -/
def dAW : Descriptor :=
  { MediaType := "application/vnd.oci.image.layer.v1.tar+gzip", Digest := "sha256:aaa",
    Size := 10, Platform := none }

/-- A reference of unrecognized media type. -/
def dBadW : Descriptor :=
  { MediaType := "application/weird", Digest := "sha256:bbb", Size := 5, Platform := none }

/-- Top-level descriptor resolving to a single-platform image manifest. -/
def descTopW : Descriptor :=
  { MediaType := "application/vnd.docker.distribution.manifest.v2+json",
    Digest := "sha256:top", Size := 3, Platform := none }

/-- Top-level descriptor resolving to a multi-platform index. -/
def descIdxW : Descriptor :=
  { MediaType := "application/vnd.oci.image.index.v1+json", Digest := "sha256:idx",
    Size := 3, Platform := none }

/-- A child (per-platform) manifest descriptor inside the index. -/
def childW : Descriptor :=
  { MediaType := "application/vnd.oci.image.manifest.v1+json", Digest := "sha256:child",
    Size := 3, Platform := none }

def platW : Platform := { Architecture := "amd64", OS := "linux" }

def im0W : ImageMirror := NewImageMirror "library/app" "v1" 0

/-- Environment: everything up to the dispatch succeeds; the tag resolves to a
single-platform manifest whose references are `[dAW, dBadW]`; no blob exists
locally; remote blob fetches succeed. -/
def envAW : Env :=
  { newRepositoryErr := none, remoteManifestsErr := none, localRepositoryErr := none,
    localManifestsErr := none, tagsGet := .ok descTopW,
    localManifestGet := fun _ => .ok (.image [dAW, dBadW]),
    remoteManifestGet := fun _ => .ok (.image [dAW, dBadW]),
    localBlobStat := fun _ => false, remoteBlobGet := fun _ => none }

/-- Same as `envAW` but the tag resolves to an index with one child manifest. -/
def envIdxW : Env :=
  { envAW with
    tagsGet := .ok descIdxW,
    localManifestGet := fun _ => .ok (.index [(childW, platW)]) }

/-- Local-repository acquisition fails; the local manifest service then also
fails (first stopping point actually taken after the swallowed failure). -/
def envC8W : Env :=
  { envAW with
    localRepositoryErr := some "embedded repo boom",
    localManifestsErr := some "nil handle" }

/-- Local-repository acquisition fails; the run then proceeds all the way to
tag resolution, which fails. -/
def envC8X : Env :=
  { envAW with
    localRepositoryErr := some "embedded repo boom",
    tagsGet := .error "tag lookup failed" }

/-- A job tracking one blob of declared size 10 (for the progress bound). -/
def cimW : ImageMirror :=
  { im0W with
    Images := [{ Architecture := "", OS := "", Digest := "sha256:top",
                 Blobs := [("sha256:x", { Precent := 0, Size := 10, Error := none, Speed := "" })] }],
    blobToImages := [("sha256:x", 0)] }

/-- A job tracking one blob of declared size 1 (receivedBytes 2 overflows the
claimed 0–100 percent range). -/
def cimX : ImageMirror :=
  { im0W with
    Images := [{ Architecture := "", OS := "", Digest := "sha256:top",
                 Blobs := [("sha256:y", { Precent := 0, Size := 1, Error := none, Speed := "" })] }],
    blobToImages := [("sha256:y", 0)] }

/-- A `Mirrored` job older than the retention cutoff at `gcNowW`. -/
def oldJobW : ImageMirror := { im0W with Phase := Mirrored, CreateTime := 0 }

/-- A `Mirrored` job newer than the cutoff. -/
def newJobW : ImageMirror := { im0W with Phase := Mirrored, CreateTime := 999999999999999999 }

/-- A non-`Mirrored` job older than the cutoff. -/
def pendJobW : ImageMirror := { im0W with Phase := Pending, CreateTime := 0 }

def gcNowW : Int := 1000000000000000000

def gcRegW : Registry := [("a:1", oldJobW), ("b:1", newJobW), ("c:1", pendJobW)]

/-- Interleaving: both threads run lock, unlock, and the phase read before
either performs the conditional write. -/
def c1schedW : List (Fin 2) := [0, 0, 0, 1, 1, 1, 0, 1]

/-- Observation helper: the blob stored for digest `d` in the `i`-th platform
image of a job, if any. -/
def blobAt (im : ImageMirror) (i : Nat) (d : Digest) : Option Blob :=
  im.Images[i]?.bind fun img => mapLookup img.Blobs d

/-- The blob tracked by `cimW` before any progress update. -/
def blobW : Blob := { Precent := 0, Size := 10, Error := none, Speed := "" }

/-! ## Helper lemmas -/

theorem mapLookup_cons_self {α : Type} (k : Digest) (v : α) (ms : List (Digest × α)) :
    mapLookup ((k, v) :: ms) k = some v := by
  simp [mapLookup]

theorem mapLookup_eq_none_iff {α : Type} (ms : List (Digest × α)) (k : Digest) :
    mapLookup ms k = none ↔ k ∉ ms.map Prod.fst := by
  induction ms with
  | nil => simp [mapLookup]
  | cons e rest ih =>
    by_cases h : e.1 = k
    · simp [mapLookup, h]
    · have h2 : k ≠ e.1 := fun hc => h hc.symm
      simp [mapLookup, h, h2, ih]

theorem keys_nodup_val_eq {α : Type} :
    ∀ (ms : List (String × α)), (ms.map Prod.fst).Nodup →
    ∀ k a b, (k, a) ∈ ms → (k, b) ∈ ms → a = b := by
  intro ms
  induction ms with
  | nil => intro _ k a b ha _; cases ha
  | cons e rest ih =>
    intro hnd k a b ha hb
    simp only [List.map_cons, List.nodup_cons] at hnd
    rcases List.mem_cons.mp ha with ha1 | ha1 <;> rcases List.mem_cons.mp hb with hb1 | hb1
    · rw [← ha1] at hb1
      exact ((Prod.mk.injEq _ _ _ _).mp hb1.symm).2
    · exfalso
      have : (k, b).1 ∈ rest.map Prod.fst := List.mem_map_of_mem Prod.fst hb1
      rw [← ha1] at hnd
      exact hnd.1 this
    · exfalso
      have : (k, a).1 ∈ rest.map Prod.fst := List.mem_map_of_mem Prod.fst ha1
      rw [← hb1] at hnd
      exact hnd.1 this
    · exact ih hnd.2 k a b ha1 hb1

theorem mapLookup_updateBlob_self (bs : List (Digest × Blob)) (dig : Digest) (f : Blob → Blob) :
    mapLookup (updateBlob bs dig f) dig = (mapLookup bs dig).map f := by
  induction bs with
  | nil => simp [updateBlob, mapLookup]
  | cons e rest ih =>
    by_cases h : e.1 = dig
    · simp [updateBlob, mapLookup, h]
    · simp [updateBlob, mapLookup, h, ih]

theorem mapLookup_updateBlob_ne (bs : List (Digest × Blob)) (dig d2 : Digest)
    (f : Blob → Blob) (h : d2 ≠ dig) :
    mapLookup (updateBlob bs dig f) d2 = mapLookup bs d2 := by
  have h2 : ¬(dig = d2) := fun hc => h hc.symm
  induction bs with
  | nil => simp [updateBlob]
  | cons e rest ih =>
    by_cases he : e.1 = dig
    · simp [updateBlob, mapLookup, he, h2]
    · by_cases he2 : e.1 = d2 <;> simp [updateBlob, mapLookup, he, he2, h, h2, ih]

theorem wrap64_eq_self (x : Int) (hx0 : 0 ≤ x) (hx : x < 2 ^ 63) : wrap64 x = x := by
  unfold wrap64
  have h1 : 0 ≤ x + 2 ^ 63 := by omega
  have h2 : x + 2 ^ 63 < 2 ^ 64 := by omega
  rw [Int.emod_eq_of_lt h1 h2]
  omega

theorem updateStatue_code (im : ImageMirror) (c : Code) (m : String) :
    (UpdateStatue im c m).Code = c := by
  unfold UpdateStatue
  repeat' split
  all_goals rfl

theorem updateStatue_phase_of_msg (im : ImageMirror) (c : Code) (m : String) (hm : m ≠ "") :
    (UpdateStatue im c m).Phase = im.Phase := by
  unfold UpdateStatue
  simp [hm]

theorem updateStatue_phase_unchanged (im : ImageMirror) (c : Code) (m : String)
    (him : ¬(c = Success ∧ m = "")) : (UpdateStatue im c m).Phase = im.Phase := by
  by_cases hm : m = ""
  · have hc : ¬(c = Success) := fun h => him ⟨h, hm⟩
    subst hm
    unfold UpdateStatue
    simp only [ne_eq, not_true_eq_false, if_false, ite_not]
    repeat' split
    all_goals rfl
  · exact updateStatue_phase_of_msg im c m hm

theorem mirrorImage_phase (env : Env) (im : ImageMirror) (desc : Descriptor) (m : Manifest) :
    (MirrorImage env im desc m).im.Phase = im.Phase := by
  unfold MirrorImage
  dsimp only
  rcases h : miLoop env im.Images.length m.References (initImage desc) im.blobToImages []
    with ⟨img, b2i, launched, err⟩
  cases err <;> rfl

/-! ## Claim theorems -/

/-- C1: the claim asserts the `Pending → Mirroring` claim transition of
`IsPending` is guarded by a single critical section, so that of N concurrent
callers exactly one observes `true`. In the source the mutex is unlocked
immediately after being locked (`Lock()` directly followed by `Unlock()`, not
deferred), so the phase read and write run outside the critical section: under
the interleaving `c1schedW`, both threads execute `IsPending` to completion
and both return `true` — two Transfer Engine runs would be launched. -/
theorem isPending_race_both_observe_true :
    (pendRun c1schedW pendInit).map (fun s => (s.ret 0, s.ret 1, s.pc 0, s.pc 1)) =
      some (some true, some true, 4, 4) := by
  decide

/-- C4: the claim asserts the eviction loop stops when `ctx.Done()` fires. In
the source the `ctxDone` arm executes `break`, which in Go terminates only the
enclosing `select`, not the `for` loop: no trace of select-case arrivals ever
exits the loop, and a tick arriving after `ctxDone` still performs a sweep
(the stale `Mirrored` job is evicted after cancellation). -/
theorem gc_loop_never_exits :
    (∀ (cases : List SelectCase) (ms : Registry), (gcLoop cases ms).2 = false) ∧
    gcLoop [SelectCase.ctxDone, SelectCase.tick gcNowW] gcRegW =
      ([("b:1", newJobW), ("c:1", pendJobW)], false) := by
  constructor
  · intro cases
    induction cases with
    | nil => intro ms; simp [gcLoop]
    | cons c rest ih => intro ms; cases c <;> simp [gcLoop, gcSelect, ih]
  · decide

/-- C7: the claim asserts every launched per-blob fetch task is joined before
`MirrorImage` returns on every return path. On the unrecognized-media-type
path the source returns without calling `wg.Wait()`: with one recognized,
locally-absent blob before the bad reference, a fetch goroutine has been
launched (`launched = ["sha256:aaa"]`) yet the function returns with the
join not executed (`waited = false`). -/
theorem mirrorImage_unjoined_fetch_on_unknown_mediatype :
    (MirrorImage envAW im0W descTopW (Manifest.image [dAW, dBadW])).waited = false ∧
    (MirrorImage envAW im0W descTopW (Manifest.image [dAW, dBadW])).launched = ["sha256:aaa"] ∧
    (MirrorImage envAW im0W descTopW (Manifest.image [dAW, dBadW])).err =
      some "unknown mediatype application/weird" := by
  decide

/-- C9: `UpdateStatue(c, m)` with a non-empty `m` stores `c` and `m` verbatim
and leaves the phase and every other field unchanged; the phase can only
change when the call is `UpdateStatue(Success, "")`, which sets it to
`Mirrored`. -/
theorem updateStatue_frame (im : ImageMirror) (c : Code) (m : String) :
    (m ≠ "" →
      (UpdateStatue im c m).Code = c ∧ (UpdateStatue im c m).Message = m ∧
      (UpdateStatue im c m).Phase = im.Phase ∧ (UpdateStatue im c m).Name = im.Name ∧
      (UpdateStatue im c m).Tag = im.Tag ∧ (UpdateStatue im c m).CreateTime = im.CreateTime ∧
      (UpdateStatue im c m).Images = im.Images ∧
      (UpdateStatue im c m).blobToImages = im.blobToImages) ∧
    ((UpdateStatue im c m).Phase ≠ im.Phase → c = Success ∧ m = "") ∧
    (UpdateStatue im Success "").Phase = Mirrored := by
  refine ⟨fun hm => ?_, fun hph => ?_, ?_⟩
  · unfold UpdateStatue; simp [hm]
  · by_contra hcon
    rw [Decidable.not_and_iff_or_not] at hcon
    exact hph (updateStatue_phase_unchanged im c m (fun hc => by
      rcases hcon with h | h
      · exact h hc.1
      · exact h hc.2))
  · unfold UpdateStatue
    simp [NameInvalid, TagNotFound, Success]

/-- C9 witness: a concrete non-empty-message update leaves the phase at its
prior value. -/
theorem updateStatue_frame_witness :
    (UpdateStatue im0W Unknown "boom").Phase = im0W.Phase ∧
    (UpdateStatue im0W Unknown "boom").Code = Unknown ∧
    (UpdateStatue im0W Unknown "boom").Message = "boom" := by
  have h := updateStatue_frame im0W Unknown "boom"
  have h1 := h.1 (by decide)
  exact ⟨h1.2.2.1, h1.1, h1.2.1⟩

/-- C10: when `UpdateImagePrecent` returns an error the job is completely
unchanged; when it returns nil, only the addressed blob's `Precent` changes —
every other field of the job, every other image, every image's non-blob
fields, and every other blob entry are untouched. -/
theorem updateImagePrecent_frame (im : ImageMirror) (dig : Digest) (size : Int) :
    (∀ msg im2, UpdateImagePrecent im dig size = .err msg im2 → im2 = im) ∧
    (∀ im2, UpdateImagePrecent im dig size = .ok im2 →
      im2.Name = im.Name ∧ im2.Tag = im.Tag ∧ im2.CreateTime = im.CreateTime ∧
      im2.Phase = im.Phase ∧ im2.Message = im.Message ∧ im2.Code = im.Code ∧
      im2.blobToImages = im.blobToImages ∧ im2.Images.length = im.Images.length ∧
      ∃ idx, mapLookup im.blobToImages dig = some idx ∧
        (∀ i : Nat, i ≠ idx → im2.Images[i]? = im.Images[i]?) ∧
        (∀ (i : Nat) (d2 : Digest), d2 ≠ dig → blobAt im2 i d2 = blobAt im i d2) ∧
        (∀ i : Nat, i ≠ idx → blobAt im2 i dig = blobAt im i dig) ∧
        (∀ (i : Nat) (img2 img : Image), im2.Images[i]? = some img2 → im.Images[i]? = some img →
          img2.Architecture = img.Architecture ∧ img2.OS = img.OS ∧ img2.Digest = img.Digest) ∧
        (∃ b, blobAt im idx dig = some b ∧
          blobAt im2 idx dig = some { b with Precent := Int.tdiv (wrap64 (size * 100)) b.Size })) := by
  constructor
  · intro msg im2 h
    unfold UpdateImagePrecent at h
    split at h
    · injection h with _ h2; exact h2.symm
    · split at h
      · dsimp only at h
        split at h
        · injection h with _ h2; exact h2.symm
        · split at h
          · cases h
          · cases h
      · injection h with _ h2; exact h2.symm
  · intro im2 h
    unfold UpdateImagePrecent at h
    split at h
    · cases h
    case h_2 idx hl =>
      split at h
      case isTrue hidx =>
        dsimp only at h
        split at h
        · cases h
        case h_2 layer hb =>
          split at h
          · cases h
          case isFalse hcr =>
            injection h with h2
            subst h2
            refine ⟨rfl, rfl, rfl, rfl, rfl, rfl, rfl, by simp, idx, hl, ?_, ?_, ?_, ?_, ?_⟩
            · intro i hi
              exact List.getElem?_set_ne (Ne.symm hi)
            · intro i d2 hd2
              unfold blobAt
              by_cases hii : i = idx
              · subst hii
                rw [List.getElem?_set_self hidx, List.getElem?_eq_getElem hidx]
                simp only [Option.some_bind]
                exact mapLookup_updateBlob_ne _ _ _ _ hd2
              · rw [List.getElem?_set_ne (Ne.symm hii)]
            · intro i hi
              unfold blobAt
              rw [List.getElem?_set_ne (Ne.symm hi)]
            · intro i img2 img h2 h3
              by_cases hii : i = idx
              · subst hii
                rw [List.getElem?_set_self hidx] at h2
                rw [List.getElem?_eq_getElem hidx] at h3
                injection h2 with h2
                injection h3 with h3
                subst h2; subst h3
                exact ⟨rfl, rfl, rfl⟩
              · rw [List.getElem?_set_ne (Ne.symm hii)] at h2
                rw [h2] at h3
                injection h3 with h3
                subst h3
                exact ⟨rfl, rfl, rfl⟩
            · refine ⟨layer, ?_, ?_⟩
              · unfold blobAt
                rw [List.getElem?_eq_getElem hidx]
                simpa using hb
              · unfold blobAt
                rw [List.getElem?_set_self hidx]
                simp only [Option.some_bind]
                rw [mapLookup_updateBlob_self, hb]
                rfl
      · cases h

/-- C10 witness: a concrete error return (absent digest) leaves the job
unchanged. -/
theorem updateImagePrecent_frame_witness :
    UpdateImagePrecent cimW "sha256:zzz" 4 =
      UPResult.err "ImageMirror: not found digest sha256:zzz" cimW ∧ cimW = cimW :=
  ⟨by decide,
   (updateImagePrecent_frame cimW "sha256:zzz" 4).1
     "ImageMirror: not found digest sha256:zzz" cimW (by decide)⟩

/-- C5: the claim's bound `0 <= percent <= 100` for every non-negative
`receivedBytes` fails (see the counterexample); with the forced amendment
`receivedBytes <= size` (plus `size > 0` as claimed, and the product
`receivedBytes * 100` staying inside int64, which the source's wrapping
arithmetic forces), the stored percent equals
`floor(receivedBytes * 100 / size)` and lies in `[0, 100]`. -/
theorem updateImagePrecent_percent_bound (im : ImageMirror) (dig : Digest) (r : Int)
    (idx : Nat) (b : Blob)
    (h1 : mapLookup im.blobToImages dig = some idx)
    (h2 : blobAt im idx dig = some b)
    (hpos : 0 < b.Size) (hr0 : 0 ≤ r) (hrs : r ≤ b.Size) (hov : r * 100 < 2 ^ 63) :
    ∃ im2, UpdateImagePrecent im dig r = UPResult.ok im2 ∧
      ∀ b2, blobAt im2 idx dig = some b2 →
        b2.Precent = (r * 100) / b.Size ∧ 0 ≤ b2.Precent ∧ b2.Precent ≤ 100 := by
  unfold blobAt at h2
  rcases hg : im.Images[idx]? with _ | img
  · rw [hg] at h2; cases h2
  · rw [hg] at h2
    simp only [Option.some_bind] at h2
    obtain ⟨hidx, hgetl⟩ := List.getElem?_eq_some_iff.mp hg
    have h100 : (0 : Int) ≤ r * 100 := by omega
    have hw : wrap64 (r * 100) = r * 100 := wrap64_eq_self _ h100 hov
    have hnz : ¬(b.Size = 0 ∨ (wrap64 (r * 100) = -(2 ^ 63) ∧ b.Size = -1)) := by
      push_neg
      exact ⟨by omega, fun _ => by omega⟩
    have htd : Int.tdiv (wrap64 (r * 100)) b.Size = (r * 100) / b.Size := by
      rw [hw]
      exact Int.tdiv_eq_ediv h100 (le_of_lt hpos)
    unfold UpdateImagePrecent
    rw [h1]
    dsimp only
    rw [dif_pos hidx, hgetl, h2]
    dsimp only
    rw [if_neg hnz]
    refine ⟨_, rfl, ?_⟩
    intro b2 hb2
    unfold blobAt at hb2
    dsimp only at hb2
    rw [List.getElem?_set_self hidx] at hb2
    simp only [Option.some_bind] at hb2
    rw [mapLookup_updateBlob_self, h2] at hb2
    simp only [Option.map_some'] at hb2
    injection hb2 with hb2
    subst hb2
    refine ⟨htd, ?_, ?_⟩
    · rw [htd]
      exact Int.ediv_nonneg h100 (le_of_lt hpos)
    · rw [htd]
      calc (r * 100) / b.Size ≤ (b.Size * 100) / b.Size :=
            Int.ediv_le_ediv hpos (by omega)
        _ = 100 := Int.mul_ediv_cancel_left 100 (ne_of_gt hpos)

/-- C5 witness: receivedBytes 4 of 10 declared bytes gives percent 40. -/
theorem updateImagePrecent_percent_bound_witness :
    ∃ im2, UpdateImagePrecent cimW "sha256:x" 4 = UPResult.ok im2 ∧
      ∀ b2, blobAt im2 0 "sha256:x" = some b2 →
        b2.Precent = (4 * 100) / blobW.Size ∧ 0 ≤ b2.Precent ∧ b2.Precent ≤ 100 :=
  updateImagePrecent_percent_bound cimW "sha256:x" 4 0 blobW (by decide) (by decide)
    (by decide) (by decide) (by decide) (by decide)

/-- C5 counterexample: with declared size 1 and receivedBytes 2 (non-negative),
the stored percent is 200, violating the claimed `percent <= 100` bound. -/
theorem updateImagePrecent_percent_counterexample :
    (match UpdateImagePrecent cimX "sha256:y" 2 with
      | UPResult.ok im2 => blobAt im2 0 "sha256:y"
      | _ => none) = some { Precent := 200, Size := 1, Error := none, Speed := "" } ∧
    ¬((200 : Int) ≤ 100) := by
  exact ⟨by decide, by decide⟩

/-- C3: after one eviction tick, a job entry survives the registry if and only
if it is not (`Mirrored` and created before `now − 7 days`); surviving entries
are unchanged (the same pair is still present), covering both directions of
the claim. -/
theorem gc_tick_evicts_iff (now : Int) (ms : Registry)
    (hnd : (ms.map Prod.fst).Nodup) (key : String) (im : ImageMirror)
    (hmem : (key, im) ∈ ms) :
    ((key, im) ∈ gcTick now ms ↔
      ¬(im.Phase = Mirrored ∧ im.CreateTime < now - retentionNanos)) := by
  unfold gcTick
  dsimp only
  constructor
  · intro hin hcond
    rcases List.mem_filter.mp hin with ⟨_, hbool⟩
    have hkey : key ∈ ((ms.filter fun p =>
        decide (p.2.Phase = Mirrored) && decide (p.2.CreateTime < now - retentionNanos)).map
          Prod.fst) := by
      have hfil : (key, im) ∈ ms.filter fun p =>
          decide (p.2.Phase = Mirrored) && decide (p.2.CreateTime < now - retentionNanos) :=
        List.mem_filter.mpr ⟨hmem, by simp [hcond.1, hcond.2]⟩
      exact List.mem_map_of_mem Prod.fst hfil
    simp [hkey] at hbool
  · intro hcond
    refine List.mem_filter.mpr ⟨hmem, ?_⟩
    simp only [Bool.not_eq_true']
    rw [Bool.eq_false_iff]
    intro hc
    have hmemk : key ∈ ((ms.filter fun p =>
        decide (p.2.Phase = Mirrored) && decide (p.2.CreateTime < now - retentionNanos)).map
          Prod.fst) := by
      simpa using hc
    obtain ⟨p, hpfil, hpkey⟩ := List.mem_map.mp hmemk
    obtain ⟨hpms, hppred⟩ := List.mem_filter.mp hpfil
    have hpim : p.2 = im := by
      apply keys_nodup_val_eq ms hnd key p.2 im _ hmem
      rw [← hpkey]
      exact hpms
    rw [hpim] at hppred
    simp at hppred
    exact hcond ⟨hppred.1, hppred.2⟩

/-- C3 witness: in a registry holding an old `Mirrored` job, a fresh
`Mirrored` job, and an old `Pending` job, the tick's survival test applied to
the old `Mirrored` entry. -/
theorem gc_tick_evicts_iff_witness :
    (("a:1", oldJobW) ∈ gcTick gcNowW gcRegW ↔
      ¬(oldJobW.Phase = Mirrored ∧ oldJobW.CreateTime < gcNowW - retentionNanos)) :=
  gc_tick_evicts_iff gcNowW gcRegW (by decide) "a:1" oldJobW (by decide)

/-- C6: `getim` returns the job already mapped to `name ++ ":" ++ tag` when one
is present (leaving the registry untouched); on a miss it inserts exactly one
freshly created `Pending` job; a second call for the same key with no
intervening delete returns the same job; and key-uniqueness of the registry is
preserved. -/
theorem getim_get_or_create (ms : Registry) (name tag : String) (now : Int) :
    (∀ im, mapLookup ms (name ++ ":" ++ tag) = some im → getim ms name tag now = (im, ms)) ∧
    (mapLookup ms (name ++ ":" ++ tag) = none →
      getim ms name tag now =
        (NewImageMirror name tag now, (name ++ ":" ++ tag, NewImageMirror name tag now) :: ms) ∧
      (getim ms name tag now).1.Phase = Pending) ∧
    (getim (getim ms name tag now).2 name tag now).1 = (getim ms name tag now).1 ∧
    ((ms.map Prod.fst).Nodup → (((getim ms name tag now).2).map Prod.fst).Nodup) := by
  refine ⟨?_, ?_, ?_, ?_⟩
  · intro im h
    simp [getim, h]
  · intro h
    constructor
    · simp [getim, h]
    · simp [getim, h, NewImageMirror]
  · rcases h : mapLookup ms (name ++ ":" ++ tag) with _ | im
    · have h2 : mapLookup ((name ++ ":" ++ tag, NewImageMirror name tag now) :: ms)
          (name ++ ":" ++ tag) = some (NewImageMirror name tag now) :=
        mapLookup_cons_self _ _ _
      simp [getim, h, h2]
    · simp [getim, h]
  · intro hnd
    rcases h : mapLookup ms (name ++ ":" ++ tag) with _ | im
    · have hnotin : (name ++ ":" ++ tag) ∉ ms.map Prod.fst :=
        (mapLookup_eq_none_iff ms _).mp h
      simp [getim, h, List.nodup_cons, hnotin, hnd]
    · simp [getim, h, hnd]

/-- C6 witness: a concrete hit returns the stored job and leaves the registry
unchanged. -/
theorem getim_get_or_create_witness :
    getim [("library/app:v1", im0W)] "library/app" "v1" 7 = (im0W, [("library/app:v1", im0W)]) :=
  (getim_get_or_create [("library/app:v1", im0W)] "library/app" "v1" 7).1 im0W (by decide)

/-! ## Transfer-engine lemmas and the remaining claims -/

theorem updateStatue_success_phase (im : ImageMirror) :
    (UpdateStatue im Success "").Phase = Mirrored := by
  unfold UpdateStatue
  simp [NameInvalid, TagNotFound, Success]

theorem miLoop_unknown_err (env : Env) (imgIdx : Nat) (bad : Descriptor)
    (hbad : recognizedMediaTypes.contains bad.MediaType = false) :
    ∀ (pre : List Descriptor),
    (∀ d ∈ pre, recognizedMediaTypes.contains d.MediaType = true) →
    ∀ (rest : List Descriptor) (img : Image) (b2i : List (Digest × Nat))
      (launched : List Digest),
    (miLoop env imgIdx (pre ++ bad :: rest) img b2i launched).2.2.2 =
      some ("unknown mediatype " ++ bad.MediaType) := by
  have hbad2 : bad.MediaType ∉ recognizedMediaTypes := by simpa using hbad
  intro pre
  induction pre with
  | nil =>
    intro _ rest img b2i launched
    simp [miLoop, hbad2]
  | cons d pre ih =>
    intro hrec rest img b2i launched
    have hd : d.MediaType ∈ recognizedMediaTypes := by
      simpa using hrec d (List.mem_cons_self d pre)
    have hrec2 : ∀ d2 ∈ pre, recognizedMediaTypes.contains d2.MediaType = true :=
      fun d2 h2 => hrec d2 (List.mem_cons_of_mem d h2)
    by_cases hstat : env.localBlobStat d.Digest
    · simp [miLoop, hd, hstat]
      exact ih hrec2 rest _ _ _
    · simp [miLoop, hd, hstat]
      exact ih hrec2 rest _ _ _

theorem miLoop_unknown_launched (env : Env) (imgIdx : Nat) (bad : Descriptor)
    (hbad : recognizedMediaTypes.contains bad.MediaType = false) :
    ∀ (pre : List Descriptor),
    (∀ d ∈ pre, recognizedMediaTypes.contains d.MediaType = true) →
    ∀ (rest : List Descriptor) (img : Image) (b2i : List (Digest × Nat))
      (launched : List Digest),
    (miLoop env imgIdx (pre ++ bad :: rest) img b2i launched).2.2.1 =
      launched ++ (pre.filter (fun d => !env.localBlobStat d.Digest)).map Descriptor.Digest := by
  have hbad2 : bad.MediaType ∉ recognizedMediaTypes := by simpa using hbad
  intro pre
  induction pre with
  | nil =>
    intro _ rest img b2i launched
    simp [miLoop, hbad2]
  | cons d pre ih =>
    intro hrec rest img b2i launched
    have hd : d.MediaType ∈ recognizedMediaTypes := by
      simpa using hrec d (List.mem_cons_self d pre)
    have hrec2 : ∀ d2 ∈ pre, recognizedMediaTypes.contains d2.MediaType = true :=
      fun d2 h2 => hrec d2 (List.mem_cons_of_mem d h2)
    by_cases hstat : env.localBlobStat d.Digest
    · simp [miLoop, hd, hstat]
      exact ih hrec2 rest _ _ _
    · simp [miLoop, hd, hstat]
      rw [ih hrec2 rest _ _ _]
      simp [hstat, List.append_assoc]

theorem mirrorImage_fail_fast (env : Env) (im : ImageMirror) (desc : Descriptor)
    (pre rest : List Descriptor) (bad : Descriptor)
    (hrec : ∀ d ∈ pre, recognizedMediaTypes.contains d.MediaType = true)
    (hbad : recognizedMediaTypes.contains bad.MediaType = false) :
    (MirrorImage env im desc (.image (pre ++ bad :: rest))).err =
      some ("unknown mediatype " ++ bad.MediaType) ∧
    (MirrorImage env im desc (.image (pre ++ bad :: rest))).launched =
      (pre.filter (fun d => !env.localBlobStat d.Digest)).map Descriptor.Digest ∧
    (MirrorImage env im desc (.image (pre ++ bad :: rest))).waited = false := by
  have herr := miLoop_unknown_err env im.Images.length bad hbad pre hrec rest
    (initImage desc) im.blobToImages []
  have hlau := miLoop_unknown_launched env im.Images.length bad hbad pre hrec rest
    (initImage desc) im.blobToImages []
  unfold MirrorImage
  dsimp only
  rcases h : miLoop env im.Images.length (Manifest.image (pre ++ bad :: rest)).References
      (initImage desc) im.blobToImages [] with ⟨img, b2i, l, err⟩
  rw [show (Manifest.image (pre ++ bad :: rest)).References = pre ++ bad :: rest from rfl] at h
  rw [h] at herr hlau
  dsimp only at herr hlau
  subst herr
  subst hlau
  exact ⟨rfl, by simp, rfl⟩

theorem indexLoop_events_extend (env : Env) :
    ∀ (entries : List (Descriptor × Platform)) (im : ImageMirror)
      (launched : List Digest) (ev : List Step),
    ∃ suffix, (indexLoop env im entries launched ev).events = ev ++ suffix := by
  intro entries
  induction entries with
  | nil =>
    intro im launched ev
    exact ⟨[Step.updateStatus Success], rfl⟩
  | cons e rest ih =>
    intro im launched ev
    rcases e with ⟨md, pl⟩
    unfold indexLoop
    dsimp only
    by_cases hmt : md.MediaType = "application/vnd.oci.image.manifest.v1+json"
    · rw [if_pos hmt]
      rcases hr : env.remoteManifestGet md.Digest with e2 | m
      · exact ⟨[Step.remoteManifestGet md.Digest, Step.updateStatus Unknown], by simp⟩
      · dsimp only
        rcases herr : (MirrorImage env im { md with Platform := some pl } m).err with _ | e3
        · obtain ⟨s, hs⟩ := ih (MirrorImage env im { md with Platform := some pl } m).im
            (launched ++ (MirrorImage env im { md with Platform := some pl } m).launched)
            ((ev ++ [Step.remoteManifestGet md.Digest]) ++
              [Step.mirrorImageCall md.Digest])
          refine ⟨[Step.remoteManifestGet md.Digest, Step.mirrorImageCall md.Digest] ++ s, ?_⟩
          dsimp only
          rw [hs]
          simp
        · refine ⟨[Step.remoteManifestGet md.Digest, Step.mirrorImageCall md.Digest,
            Step.updateStatus Unknown], ?_⟩
          simp
    · rw [if_neg hmt]
      exact ⟨[Step.updateStatus UnknownMediaType], rfl⟩

theorem indexLoop_events_mem (env : Env) (entries : List (Descriptor × Platform))
    (im : ImageMirror) (launched : List Digest) (ev : List Step) (x : Step) (hx : x ∈ ev) :
    x ∈ (indexLoop env im entries launched ev).events := by
  obtain ⟨s, hs⟩ := indexLoop_events_extend env entries im launched ev
  rw [hs]
  exact List.mem_append_left _ hx

theorem mirrorimages_events_after_localrepo (env : Env) (im0 : ImageMirror) (e : String)
    (h1 : env.newRepositoryErr = none) (h2 : env.remoteManifestsErr = none)
    (h3 : env.localRepositoryErr = some e) (x : Step)
    (hx : x ∈ [Step.configAuth, Step.newRepository, Step.remoteManifests, Step.localRepository,
      Step.updateStatus Unknown, Step.localManifests false]) :
    x ∈ (mirrorimages env im0).events := by
  unfold mirrorimages
  rw [h1]
  try dsimp only
  rw [h2]
  try dsimp only
  rw [h3]
  try dsimp only
  rcases h4 : env.localManifestsErr with _ | e2
  · dsimp only
    rcases h5 : env.tagsGet with e3 | desc
    · simp at hx ⊢; tauto
    · dsimp only
      rcases h6 : env.localManifestGet desc.Digest with e4 | manifest
      · simp at hx ⊢; tauto
      · dsimp only
        by_cases h7 : desc.MediaType = "application/vnd.docker.distribution.manifest.v2+json"
        · rw [if_pos h7]
          try dsimp only
          split
          · simp at hx ⊢; tauto
          · simp at hx ⊢; tauto
        · rw [if_neg h7]
          by_cases h8 : desc.MediaType = "application/vnd.oci.image.index.v1+json"
          · rw [if_pos h8]
            rcases manifest with refs | entries
            · simp at hx ⊢; tauto
            · apply indexLoop_events_mem
              simp at hx ⊢; tauto
          · rw [if_neg h8]
            simp at hx ⊢; tauto
  · simp at hx ⊢; tauto

/-- C8: the claim says every failure path of `mirrorimages` sets a non-Success
status and returns before any further transfer step, in particular that the
run stops when `embedded.Repository` fails. Corrected per the source, arm by
arm: the five pre-dispatch failures other than local-repository stop with
their status (conjuncts 2–6), the top-level and index-child unrecognized
media-type arms stop with `UnknownMediaType` (conjuncts 7–8), the index-arm
child-manifest-fetch failure and index-arm blob-sync failure stop with
`Unknown` before the final Success update (conjuncts 9–10); but two failure
paths do not return: the local-repository failure sets `Unknown` and continues,
invoking `Manifests` on the handle from the failed acquisition (conjunct 1),
and the single-platform blob-sync failure sets `Unknown` and falls through to
`UpdateStatue(Success, "")`, ending the job `Success`/`Mirrored`
(conjunct 11). -/
theorem mirrorimages_error_policy (env : Env) (im0 : ImageMirror) :
    (∀ e, env.newRepositoryErr = none → env.remoteManifestsErr = none →
      env.localRepositoryErr = some e →
      Step.updateStatus Unknown ∈ (mirrorimages env im0).events ∧
      Step.localManifests false ∈ (mirrorimages env im0).events) ∧
    (∀ e, env.newRepositoryErr = some e →
      (mirrorimages env im0).im.Code = NameInvalid ∧
      Step.remoteManifests ∉ (mirrorimages env im0).events) ∧
    (∀ e, env.newRepositoryErr = none → env.remoteManifestsErr = some e →
      (mirrorimages env im0).im.Code = Unknown ∧
      Step.localRepository ∉ (mirrorimages env im0).events) ∧
    (∀ e, env.newRepositoryErr = none → env.remoteManifestsErr = none →
      env.localManifestsErr = some e →
      (mirrorimages env im0).im.Code = Unknown ∧
      Step.tagsGet ∉ (mirrorimages env im0).events) ∧
    (∀ e, env.newRepositoryErr = none → env.remoteManifestsErr = none →
      env.localManifestsErr = none → env.tagsGet = .error e →
      (mirrorimages env im0).im.Code = TagNotFound ∧
      Step.localManifestGet ∉ (mirrorimages env im0).events) ∧
    (∀ e desc, env.newRepositoryErr = none → env.remoteManifestsErr = none →
      env.localManifestsErr = none → env.tagsGet = .ok desc →
      env.localManifestGet desc.Digest = .error e →
      (mirrorimages env im0).im.Code = Unknown ∧
      (∀ dg, Step.mirrorImageCall dg ∉ (mirrorimages env im0).events)) ∧
    (∀ (desc : Descriptor) (manifest : Manifest),
      env.newRepositoryErr = none → env.remoteManifestsErr = none →
      env.localManifestsErr = none → env.tagsGet = .ok desc →
      env.localManifestGet desc.Digest = .ok manifest →
      desc.MediaType ≠ "application/vnd.docker.distribution.manifest.v2+json" →
      desc.MediaType ≠ "application/vnd.oci.image.index.v1+json" →
      (mirrorimages env im0).im.Code = UnknownMediaType ∧
      (∀ dg, Step.mirrorImageCall dg ∉ (mirrorimages env im0).events) ∧
      Step.updateStatus Success ∉ (mirrorimages env im0).events) ∧
    (∀ (desc entry : Descriptor) (pl : Platform) (rest : List (Descriptor × Platform)),
      env.newRepositoryErr = none → env.remoteManifestsErr = none →
      env.localManifestsErr = none → env.tagsGet = .ok desc →
      desc.MediaType = "application/vnd.oci.image.index.v1+json" →
      env.localManifestGet desc.Digest = .ok (.index ((entry, pl) :: rest)) →
      entry.MediaType ≠ "application/vnd.oci.image.manifest.v1+json" →
      (mirrorimages env im0).im.Code = UnknownMediaType ∧
      (∀ dg, Step.mirrorImageCall dg ∉ (mirrorimages env im0).events) ∧
      Step.updateStatus Success ∉ (mirrorimages env im0).events) ∧
    (∀ (desc entry : Descriptor) (pl : Platform) (rest : List (Descriptor × Platform))
      (e : String),
      env.newRepositoryErr = none → env.remoteManifestsErr = none →
      env.localManifestsErr = none → env.tagsGet = .ok desc →
      desc.MediaType = "application/vnd.oci.image.index.v1+json" →
      env.localManifestGet desc.Digest = .ok (.index ((entry, pl) :: rest)) →
      entry.MediaType = "application/vnd.oci.image.manifest.v1+json" →
      env.remoteManifestGet entry.Digest = .error e →
      (mirrorimages env im0).im.Code = Unknown ∧
      (∀ dg, Step.mirrorImageCall dg ∉ (mirrorimages env im0).events) ∧
      Step.updateStatus Success ∉ (mirrorimages env im0).events) ∧
    (∀ (desc entry : Descriptor) (pl : Platform) (rest : List (Descriptor × Platform))
      (m : Manifest) (e : String),
      env.newRepositoryErr = none → env.remoteManifestsErr = none →
      env.localRepositoryErr = none → env.localManifestsErr = none →
      env.tagsGet = .ok desc →
      desc.MediaType = "application/vnd.oci.image.index.v1+json" →
      env.localManifestGet desc.Digest = .ok (.index ((entry, pl) :: rest)) →
      entry.MediaType = "application/vnd.oci.image.manifest.v1+json" →
      env.remoteManifestGet entry.Digest = .ok m →
      (MirrorImage env im0 { entry with Platform := some pl } m).err = some e →
      (mirrorimages env im0).im.Code = Unknown ∧
      (mirrorimages env im0).im.Phase = im0.Phase ∧
      Step.updateStatus Success ∉ (mirrorimages env im0).events) ∧
    (∀ (desc : Descriptor) (manifest : Manifest) (e : String),
      env.newRepositoryErr = none → env.remoteManifestsErr = none →
      env.localRepositoryErr = none → env.localManifestsErr = none →
      env.tagsGet = .ok desc →
      desc.MediaType = "application/vnd.docker.distribution.manifest.v2+json" →
      env.localManifestGet desc.Digest = .ok manifest →
      (MirrorImage env im0 desc manifest).err = some e →
      (mirrorimages env im0).im.Code = Success ∧
      (mirrorimages env im0).im.Phase = Mirrored ∧
      Step.updateStatus Unknown ∈ (mirrorimages env im0).events ∧
      Step.updateStatus Success ∈ (mirrorimages env im0).events) := by
  refine ⟨?_, ?_, ?_, ?_, ?_, ?_, ?_, ?_, ?_, ?_, ?_⟩
  · intro e h1 h2 h3
    exact ⟨mirrorimages_events_after_localrepo env im0 e h1 h2 h3 _ (by simp),
      mirrorimages_events_after_localrepo env im0 e h1 h2 h3 _ (by simp)⟩
  · intro e h1
    unfold mirrorimages
    rw [h1]
    try dsimp only
    exact ⟨updateStatue_code _ _ _, by decide⟩
  · intro e h1 h2
    unfold mirrorimages
    rw [h1]
    try dsimp only
    rw [h2]
    try dsimp only
    exact ⟨updateStatue_code _ _ _, by decide⟩
  · intro e h1 h2 h3
    unfold mirrorimages
    rw [h1]
    try dsimp only
    rw [h2]
    try dsimp only
    rcases h9 : env.localRepositoryErr with _ | e9 <;>
      (try dsimp only) <;> rw [h3] <;> (try dsimp only) <;>
      exact ⟨updateStatue_code _ _ _, by simp⟩
  · intro e h1 h2 h3 h4
    unfold mirrorimages
    rw [h1]
    try dsimp only
    rw [h2]
    try dsimp only
    rcases h9 : env.localRepositoryErr with _ | e9 <;>
      (try dsimp only) <;> rw [h3] <;> (try dsimp only) <;> rw [h4] <;> (try dsimp only) <;>
      exact ⟨updateStatue_code _ _ _, by simp⟩
  · intro e desc h1 h2 h3 h4 h5
    unfold mirrorimages
    rw [h1]
    try dsimp only
    rw [h2]
    try dsimp only
    rcases h9 : env.localRepositoryErr with _ | e9 <;>
      (try dsimp only) <;> rw [h3] <;> (try dsimp only) <;> rw [h4] <;> (try dsimp only) <;>
      rw [h5] <;> (try dsimp only) <;>
      exact ⟨updateStatue_code _ _ _, fun dg => by simp⟩
  · intro desc manifest h1 h2 h3 htag hlmg h7 h8
    unfold mirrorimages
    rw [h1]
    try dsimp only
    rw [h2]
    try dsimp only
    rcases h9 : env.localRepositoryErr with _ | e9 <;>
      (try dsimp only) <;> rw [h3] <;> (try dsimp only) <;> rw [htag] <;> (try dsimp only) <;>
      rw [hlmg] <;> (try dsimp only) <;> rw [if_neg h7, if_neg h8] <;> (try dsimp only) <;>
      exact ⟨updateStatue_code _ _ _, fun dg => by simp,
        by simp [Success, Unknown, UnknownMediaType]⟩
  · intro desc entry pl rest h1 h2 h3 htag hmt hlmg hent
    unfold mirrorimages
    rw [h1]
    try dsimp only
    rw [h2]
    try dsimp only
    rcases h9 : env.localRepositoryErr with _ | e9 <;>
      (try dsimp only) <;> rw [h3] <;> (try dsimp only) <;> rw [htag] <;> (try dsimp only) <;>
      rw [hlmg] <;> (try dsimp only) <;> rw [if_neg (by simp [hmt]), if_pos hmt] <;>
      (try dsimp only) <;> unfold indexLoop <;> (try dsimp only) <;>
      rw [if_neg hent] <;> (try dsimp only) <;>
      exact ⟨updateStatue_code _ _ _, fun dg => by simp,
        by simp [Success, Unknown, UnknownMediaType]⟩
  · intro desc entry pl rest e h1 h2 h3 htag hmt hlmg hent hrmg
    unfold mirrorimages
    rw [h1]
    try dsimp only
    rw [h2]
    try dsimp only
    rcases h9 : env.localRepositoryErr with _ | e9 <;>
      (try dsimp only) <;> rw [h3] <;> (try dsimp only) <;> rw [htag] <;> (try dsimp only) <;>
      rw [hlmg] <;> (try dsimp only) <;> rw [if_neg (by simp [hmt]), if_pos hmt] <;>
      (try dsimp only) <;> unfold indexLoop <;> (try dsimp only) <;>
      rw [if_pos hent] <;> (try dsimp only) <;> rw [hrmg] <;> (try dsimp only) <;>
      exact ⟨updateStatue_code _ _ _, fun dg => by simp,
        by simp [Success, Unknown, UnknownMediaType]⟩
  · intro desc entry pl rest m e h1 h2 h3 h4 htag hmt hlmg hent hrmg herr
    unfold mirrorimages
    rw [h1]
    try dsimp only
    rw [h2]
    try dsimp only
    rw [h3]
    try dsimp only
    rw [h4]
    try dsimp only
    rw [htag]
    try dsimp only
    rw [hlmg]
    try dsimp only
    rw [if_neg (by simp [hmt]), if_pos hmt]
    try dsimp only
    unfold indexLoop
    try dsimp only
    rw [if_pos hent]
    try dsimp only
    rw [hrmg]
    try dsimp only
    rw [herr]
    try dsimp only
    refine ⟨updateStatue_code _ _ _, ?_, by simp [Success, Unknown, UnknownMediaType]⟩
    rw [updateStatue_phase_unchanged _ _ _ (fun hc => absurd hc.1 (by decide))]
    exact mirrorImage_phase env im0 _ _
  · intro desc manifest e h1 h2 h3 h4 htag hmt hlmg herr
    unfold mirrorimages
    rw [h1]
    try dsimp only
    rw [h2]
    try dsimp only
    rw [h3]
    try dsimp only
    rw [h4]
    try dsimp only
    rw [htag]
    try dsimp only
    rw [hlmg]
    try dsimp only
    rw [if_pos hmt]
    try dsimp only
    rw [herr]
    try dsimp only
    exact ⟨updateStatue_code _ _ _, updateStatue_success_phase _, by simp, by simp⟩
/-- C8 witness: with a failing `embedded.Repository` and a failing local
manifest service, the run records the `Unknown` status and still calls
`Manifests` on the handle from the failed acquisition. -/
theorem mirrorimages_error_policy_witness :
    Step.updateStatus Unknown ∈ (mirrorimages envC8W im0W).events ∧
    Step.localManifests false ∈ (mirrorimages envC8W im0W).events :=
  (mirrorimages_error_policy envC8W im0W).1 "embedded repo boom" rfl rfl rfl

/-- C8 counterexample: the claim says the run stops at the local-repository
failure and never invokes a method on the possibly-nil handle. On this
concrete run the handle's `Manifests` method is invoked after the failure, and
the final status (`TagNotFound`) comes from a step executed later still — the
run did not stop. -/
theorem mirrorimages_localrepo_failure_run_continues :
    Step.localManifests false ∈ (mirrorimages envC8X im0W).events ∧
    (mirrorimages envC8X im0W).im.Code = TagNotFound := by
  exact ⟨by decide, by decide⟩

/-- C2: the claim says an unrecognized blob media type ends the job with
`UnknownMediaType` and no later blob is fetched. Corrected per the source:
(1) `MirrorImage` does stop at the bad reference — it returns the
unknown-mediatype error and the launched fetches are exactly the
locally-absent recognized blobs before it; but the caller maps the error to
`Unknown`, not `UnknownMediaType`, and (2) in the single-platform path the
missing early return lets the final `UpdateStatue(Success, "")` overwrite the
failure, so the job ends `Success`/`Mirrored`; (3) only in the
multi-platform-index path does the job end with the non-Success `Unknown`. -/
theorem mirror_unknown_blob_mediatype_behavior :
    (∀ (env : Env) (im : ImageMirror) (desc : Descriptor) (pre rest : List Descriptor)
      (bad : Descriptor),
      (∀ d ∈ pre, recognizedMediaTypes.contains d.MediaType = true) →
      recognizedMediaTypes.contains bad.MediaType = false →
      (MirrorImage env im desc (.image (pre ++ bad :: rest))).err =
        some ("unknown mediatype " ++ bad.MediaType) ∧
      (MirrorImage env im desc (.image (pre ++ bad :: rest))).launched =
        (pre.filter (fun d => !env.localBlobStat d.Digest)).map Descriptor.Digest) ∧
    (∀ (env : Env) (im0 : ImageMirror) (desc : Descriptor) (pre rest : List Descriptor)
      (bad : Descriptor),
      env.newRepositoryErr = none → env.remoteManifestsErr = none →
      env.localRepositoryErr = none → env.localManifestsErr = none →
      env.tagsGet = .ok desc →
      desc.MediaType = "application/vnd.docker.distribution.manifest.v2+json" →
      env.localManifestGet desc.Digest = .ok (.image (pre ++ bad :: rest)) →
      (∀ d ∈ pre, recognizedMediaTypes.contains d.MediaType = true) →
      recognizedMediaTypes.contains bad.MediaType = false →
      (mirrorimages env im0).im.Code = Success ∧
      (mirrorimages env im0).im.Phase = Mirrored) ∧
    (∀ (env : Env) (im0 : ImageMirror) (desc entry : Descriptor) (pl : Platform)
      (pre rest : List Descriptor) (bad : Descriptor),
      env.newRepositoryErr = none → env.remoteManifestsErr = none →
      env.localRepositoryErr = none → env.localManifestsErr = none →
      env.tagsGet = .ok desc →
      desc.MediaType = "application/vnd.oci.image.index.v1+json" →
      env.localManifestGet desc.Digest = .ok (.index [(entry, pl)]) →
      entry.MediaType = "application/vnd.oci.image.manifest.v1+json" →
      env.remoteManifestGet entry.Digest = .ok (.image (pre ++ bad :: rest)) →
      (∀ d ∈ pre, recognizedMediaTypes.contains d.MediaType = true) →
      recognizedMediaTypes.contains bad.MediaType = false →
      (mirrorimages env im0).im.Code = Unknown ∧
      (mirrorimages env im0).im.Phase = im0.Phase) := by
  refine ⟨?_, ?_, ?_⟩
  · intro env im desc pre rest bad hrec hbad
    exact ⟨(mirrorImage_fail_fast env im desc pre rest bad hrec hbad).1,
      (mirrorImage_fail_fast env im desc pre rest bad hrec hbad).2.1⟩
  · intro env im0 desc pre rest bad h1 h2 h3 h4 htag hmt hlmg hrec hbad
    unfold mirrorimages
    rw [h1]
    try dsimp only
    rw [h2]
    try dsimp only
    rw [h3]
    try dsimp only
    rw [h4]
    try dsimp only
    rw [htag]
    try dsimp only
    rw [hlmg]
    try dsimp only
    rw [if_pos hmt]
    try dsimp only
    split
    · exact ⟨updateStatue_code _ _ _, updateStatue_success_phase _⟩
    · exact ⟨updateStatue_code _ _ _, updateStatue_success_phase _⟩
  · intro env im0 desc entry pl pre rest bad h1 h2 h3 h4 htag hmt hlmg hent hrmg hrec hbad
    unfold mirrorimages
    rw [h1]
    try dsimp only
    rw [h2]
    try dsimp only
    rw [h3]
    try dsimp only
    rw [h4]
    try dsimp only
    rw [htag]
    try dsimp only
    rw [hlmg]
    try dsimp only
    rw [if_neg (by simp [hmt]), if_pos hmt]
    try dsimp only
    unfold indexLoop
    try dsimp only
    rw [if_pos hent]
    try dsimp only
    rw [hrmg]
    try dsimp only
    rw [(mirrorImage_fail_fast env im0 { entry with Platform := some pl } pre rest bad
      hrec hbad).1]
    try dsimp only
    refine ⟨updateStatue_code _ _ _, ?_⟩
    rw [updateStatue_phase_unchanged _ _ _ (fun hc => absurd hc.1 (by decide))]
    exact mirrorImage_phase env im0 _ _

/-- C2 witness: one recognized locally-absent blob before the bad reference —
`MirrorImage` stops with the unknown-mediatype error having launched exactly
that one fetch. -/
theorem mirror_unknown_blob_mediatype_behavior_witness :
    (MirrorImage envAW im0W descTopW (Manifest.image ([dAW] ++ dBadW :: []))).err =
      some ("unknown mediatype " ++ dBadW.MediaType) ∧
    (MirrorImage envAW im0W descTopW (Manifest.image ([dAW] ++ dBadW :: []))).launched =
      (([dAW].filter (fun d => !envAW.localBlobStat d.Digest)).map Descriptor.Digest) :=
  mirror_unknown_blob_mediatype_behavior.1 envAW im0W descTopW [dAW] [] dBadW
    (by decide) (by decide)

/-- C2 counterexample: on the single-platform run `envAW` (manifest references
a recognized blob then one of media type `application/weird`), the job ends
with code `Success` (100) and phase `Mirrored` — not the claimed non-Success
`UnknownMediaType` (106). -/
theorem mirrorimages_bad_blob_mediatype_ends_success :
    (mirrorimages envAW im0W).im.Code = Success ∧
    (mirrorimages envAW im0W).im.Phase = Mirrored ∧
    Success ≠ UnknownMediaType := by
  exact ⟨by decide, by decide, by decide⟩

end Mirror
